import Mathlib

/-!
Shallow embedding of the `twitter-queue` IB gateway sources
(`src/ib/products.py`, `src/ib/ib_client.py`, `src/ib/ib_client_insync.py`,
`src/ib/ib_server.py`) and verification of the specification's claims
about them.

Python dictionaries keyed by request identifier are modelled as
association lists `List (Nat × α)` with Python-dict semantics:
`upsert` replaces an existing binding (`d[k] = v`), `eraseKey` removes
the binding (`del d[k]`), `List.lookup` is `d.get(k)` / `k in d`.
Python floats carried inside bar records never influence control flow in
any claim, so they are modelled as integers.
-/

namespace IBGateway

/-! ## Association-list helpers (Python dict semantics) -/

/-- Python `d[k] = v`: replace the binding of `k` if present, else append. -/
def upsert {α : Type} (m : List (Nat × α)) (k : Nat) (v : α) : List (Nat × α) :=
  match m with
  | [] => [(k, v)]
  | (k', v') :: rest => if k' = k then (k, v) :: rest else (k', v') :: upsert rest k v

/-- Python `del d[k]`: remove every binding of `k`. -/
def eraseKey {α : Type} (m : List (Nat × α)) (k : Nat) : List (Nat × α) :=
  m.filter (fun p => p.1 ≠ k)

/-- The keys of an association list. -/
def keys {α : Type} (m : List (Nat × α)) : List Nat :=
  m.map Prod.fst

/-! ## products.py -/

/-- One value of `PRODUCT_MAP` in `products.py`: broker symbol, security
type, exchange and currency for a product code. -/
structure ProductInfo where
  symbol : String
  secType : String
  exchange : String
  currency : String
deriving Repr, DecidableEq

/-- `products.py` `PRODUCT_MAP`: the static product-code table. -/
def PRODUCT_MAP : List (String × ProductInfo) :=
  [ ("UKGB",   ⟨"G",    "CONTFUT", "LIFFE", "GBP"⟩),
    ("UST10Y", ⟨"ZN",   "CONTFUT", "CBOT",  "USD"⟩),
    ("UST05Y", ⟨"ZF",   "CONTFUT", "CBOT",  "USD"⟩),
    ("UST30Y", ⟨"ZB",   "CONTFUT", "CBOT",  "USD"⟩),
    ("EURBBL", ⟨"FGBL", "CONTFUT", "EUREX", "EUR"⟩),
    ("EURSCA", ⟨"FGBS", "CONTFUT", "EUREX", "EUR"⟩),
    ("ITB10Y", ⟨"FBTP", "CONTFUT", "EUREX", "EUR"⟩),
    ("EURBND", ⟨"GBL",  "CONTFUT", "EUREX", "EUR"⟩) ]

/-- An `ibapi` / `ib_insync` `Contract` object as the repository populates
it: four identifying fields plus the futures contract-month field
(`lastTradeDateOrContractMonth`), which defaults to the empty string. -/
structure Contract where
  symbol : String
  secType : String
  exchange : String
  currency : String
  lastTradeDateOrContractMonth : String
deriving Repr, DecidableEq

/-- `products.py` `create_contract_from_product`: unknown product codes
raise `ValueError` (modelled as `Except.error`); otherwise the contract is
populated from the table entry.  The block that would copy
`contract_month` into the contract is commented out in the source, so the
month argument is ignored and the month field stays at its default. -/
def create_contract_from_product (product_code : String)
    (contract_month : Option String) : Except String Contract :=
  match PRODUCT_MAP.lookup product_code with
  | none => Except.error ("Unknown product code: " ++ product_code)
  | some product =>
      Except.ok { symbol := product.symbol
                  secType := product.secType
                  exchange := product.exchange
                  currency := product.currency
                  lastTradeDateOrContractMonth := "" }

/-- `products.py` `parse_product_from_code`: split a full code such as
`EURBBLM25` into product code and contract month.  Codes of length ≤ 3
and codes whose prefix is not in `PRODUCT_MAP` come back whole with no
month (`None` is modelled as `none`). -/
def parse_product_from_code (full_code : String) : String × Option String :=
  if full_code.length ≤ 3 then (full_code, none)
  else
    let product_code := full_code.take (full_code.length - 3)
    let contract_month := full_code.drop (full_code.length - 3)
    if (PRODUCT_MAP.lookup product_code).isSome then
      (product_code, some contract_month)
    else
      (full_code, none)

/-! ## ib_client.py — data types -/

/-- An `ibapi` `ContractDetails` record delivered by the broker; its
fields are opaque to the client, which only collects the records. -/
structure ContractDetails where
  conId : Nat
  longName : String
deriving Repr, DecidableEq

/-- An `ibapi` `BarData` record as read by `IBClient.historicalData`.
Prices are floats in the source; they are copied verbatim and never
branched on, so they are modelled as integers. -/
structure BarData where
  date : String
  open_ : Int
  high : Int
  low : Int
  close : Int
  volume : Int
  barCount : Int
  wap : Int
deriving Repr, DecidableEq

/-- The dictionary built per bar by `IBClient.historicalData` (keys
`time/open/high/low/close/volume/count/wap`). -/
structure Bar where
  time : String
  open_ : Int
  high : Int
  low : Int
  close : Int
  volume : Int
  count : Int
  wap : Int
deriving Repr, DecidableEq

/-- The mutable attributes of an `IBClient` instance (`ib_client.py`
`__init__`).  A `request_events` binding is a `threading.Event`: its
`Bool` is the event's set flag. -/
structure ClientState where
  connected : Bool
  ready : Bool
  client_id : Nat
  next_order_id : Option Nat
  req_id : Nat
  contract_details : List (Nat × List ContractDetails)
  historical_data : List (Nat × List Bar)
  request_events : List (Nat × Bool)
deriving Repr, DecidableEq

/-- `IBClient.__init__`: not connected, not ready, counter at 1, all
request dictionaries empty. -/
def initClient (client_id : Nat) : ClientState :=
  { connected := false
    ready := false
    client_id := client_id
    next_order_id := none
    req_id := 1
    contract_details := []
    historical_data := []
    request_events := [] }

/-- Set the `threading.Event` registered under `k` (`d[k].set()`);
a no-op on keys with no binding. -/
def setEvent (m : List (Nat × Bool)) (k : Nat) : List (Nat × Bool) :=
  m.map (fun p => if p.1 = k then (p.1, true) else p)

/-! ## ib_client.py — wrapper callbacks

The `EWrapper` callbacks run on the reader thread.  Each one is a pure
state transformer on `ClientState`; inbound messages are the events of
`InEvent` below. -/

/-- `IBClient.nextValidId`: store the order id and mark the session
ready. -/
def nextValidIdCb (s : ClientState) (orderId : Nat) : ClientState :=
  { s with next_order_id := some orderId, ready := true }

/-- `IBClient.connectAck`: mark the session connected. -/
def connectAckCb (s : ClientState) : ClientState :=
  { s with connected := true }

/-- `IBClient.connectionClosed`: clear both flags. -/
def connectionClosedCb (s : ClientState) : ClientState :=
  { s with connected := false, ready := false }

/-- `IBClient.error`: if a request event is registered under `reqId`,
set it; otherwise only log.  The code and message are logged only. -/
def errorCb (s : ClientState) (reqId : Nat) (_errorCode : Nat)
    (_errorString : String) : ClientState :=
  if (s.request_events.lookup reqId).isSome then
    { s with request_events := setEvent s.request_events reqId }
  else
    s

/-- `IBClient.contractDetails`: create the buffer on first use, then
append — with no check that a request event is registered. -/
def contractDetailsCb (s : ClientState) (reqId : Nat)
    (cd : ContractDetails) : ClientState :=
  let buf := (s.contract_details.lookup reqId).getD []
  { s with contract_details := upsert s.contract_details reqId (buf ++ [cd]) }

/-- `IBClient.contractDetailsEnd`: set the request event if registered. -/
def contractDetailsEndCb (s : ClientState) (reqId : Nat) : ClientState :=
  if (s.request_events.lookup reqId).isSome then
    { s with request_events := setEvent s.request_events reqId }
  else
    s

/-- `IBClient.historicalData`: create the buffer on first use, then
append the bar dictionary — with no check that a request event is
registered. -/
def historicalDataCb (s : ClientState) (reqId : Nat) (bar : BarData) :
    ClientState :=
  let buf := (s.historical_data.lookup reqId).getD []
  let entry : Bar :=
    { time := bar.date
      open_ := bar.open_
      high := bar.high
      low := bar.low
      close := bar.close
      volume := bar.volume
      count := bar.barCount
      wap := bar.wap }
  { s with historical_data := upsert s.historical_data reqId (buf ++ [entry]) }

/-- `IBClient.historicalDataEnd`: set the request event if registered. -/
def historicalDataEndCb (s : ClientState) (reqId : Nat) : ClientState :=
  if (s.request_events.lookup reqId).isSome then
    { s with request_events := setEvent s.request_events reqId }
  else
    s

/-- One inbound request-tagged message from the broker, dispatched by the
reader thread to the corresponding `EWrapper` callback. -/
inductive InEvent where
  | contractDetailsEv (reqId : Nat) (cd : ContractDetails)
  | contractDetailsEndEv (reqId : Nat)
  | historicalDataEv (reqId : Nat) (bar : BarData)
  | historicalDataEndEv (reqId : Nat)
  | errorEv (reqId : Nat) (errorCode : Nat) (errorString : String)
deriving Repr, DecidableEq

/-- Dispatch one inbound message to its callback. -/
def deliver (s : ClientState) : InEvent → ClientState
  | InEvent.contractDetailsEv reqId cd => contractDetailsCb s reqId cd
  | InEvent.contractDetailsEndEv reqId => contractDetailsEndCb s reqId
  | InEvent.historicalDataEv reqId bar => historicalDataCb s reqId bar
  | InEvent.historicalDataEndEv reqId => historicalDataEndCb s reqId
  | InEvent.errorEv reqId c m => errorCb s reqId c m

/-- Deliver a sequence of inbound messages in order. -/
def deliverAll (s : ClientState) (evs : List InEvent) : ClientState :=
  evs.foldl deliver s

/-! ## ib_client.py — connection management

`connect_to_ib` starts the reader thread and polls `self.ready` until
the timeout.  Real time is abstracted away: the parameter `evs` is the
sequence of connection-level callbacks the reader thread delivers within
the timeout window; readiness is observed iff that sequence leaves
`ready` true. -/

/-- A connection-level callback event delivered by the reader thread. -/
inductive ConnEvent where
  | connectAckEv
  | nextValidIdEv (orderId : Nat)
  | connectionClosedEv
deriving Repr, DecidableEq

/-- Dispatch one connection-level event to its callback. -/
def connStep (s : ClientState) : ConnEvent → ClientState
  | ConnEvent.connectAckEv => connectAckCb s
  | ConnEvent.nextValidIdEv oid => nextValidIdCb s oid
  | ConnEvent.connectionClosedEv => connectionClosedCb s

/-- Deliver a sequence of connection-level events in order. -/
def connRun (s : ClientState) (evs : List ConnEvent) : ClientState :=
  evs.foldl connStep s

/-- `IBClient.connect_to_ib`: dispatch the socket connect, start the
reader thread, poll `ready` until the timeout, and return `ready`.
Nothing is torn down on failure — the flags are left exactly as the
delivered events set them. -/
def connect_to_ib (s : ClientState) (evs : List ConnEvent) :
    Bool × ClientState :=
  let s' := connRun s evs
  (s'.ready, s')

/-- `IBClient.disconnect_from_ib`: disconnect and clear both flags. -/
def disconnect_from_ib (s : ClientState) : ClientState :=
  { s with connected := false, ready := false }

/-- The dictionary returned by `IBClient.test_connection`. -/
structure TestConnResult where
  connected : Bool
  errMsg : Option String
deriving Repr, DecidableEq

/-- `IBClient.test_connection`: build a throwaway client with a probe
client id, call `connect_to_ib` on it (the events `evs` are what its
reader delivers within the timeout), disconnect it only when the connect
succeeded, and return the result dictionary together with the probe
client's final state. -/
def test_connection (probe_id : Nat) (evs : List ConnEvent) :
    TestConnResult × ClientState :=
  let test_client := initClient probe_id
  let r := connect_to_ib test_client evs
  if r.1 then
    ({ connected := true, errMsg := none }, disconnect_from_ib r.2)
  else
    ({ connected := false, errMsg := some "Connection timeout" }, r.2)

/-! ## ib_client.py — request correlation -/

/-- `IBClient.get_next_req_id`: return the counter, then increment it. -/
def get_next_req_id (s : ClientState) : Nat × ClientState :=
  (s.req_id, { s with req_id := s.req_id + 1 })

/-- Run `get_next_req_id` `n` times, collecting the returned ids. -/
def run_next_ids (s : ClientState) : Nat → List Nat × ClientState
  | 0 => ([], s)
  | n + 1 =>
      let r := get_next_req_id s
      let rest := run_next_ids r.2 n
      (r.1 :: rest.1, rest.2)

/-- Outcome of a blocking request operation.  `notReady` is the
`Exception("Not connected to IB")` raise; `timeout` is the timeout
`Exception` raise, carrying the request id named in its message. -/
inductive ReqResult (α : Type) where
  | ok (res : α)
  | notReady
  | timeout (reqId : Nat)
deriving Repr, DecidableEq

/-- `IBClient.req_contract_details`: raise when not ready; else allocate
an id, register a fresh unset event, dispatch, and block on the event.
`evs` is the sequence of inbound messages the reader delivers during the
wait window; the wait returns True iff the event's flag is set after
them.  Both branches then run the source's cleanup (`del` on
`request_events`, conditional `del` on `contract_details`). -/
def req_contract_details (s : ClientState) (evs : List InEvent) :
    ReqResult (List ContractDetails) × ClientState :=
  if !s.ready then (ReqResult.notReady, s)
  else
    let alloc := get_next_req_id s
    let req_id := alloc.1
    let s1 := alloc.2
    let s2 := { s1 with request_events := upsert s1.request_events req_id false }
    let s3 := deliverAll s2 evs
    if (s3.request_events.lookup req_id).getD false then
      let details := (s3.contract_details.lookup req_id).getD []
      let s4 := { s3 with
        request_events := eraseKey s3.request_events req_id
        contract_details :=
          if (s3.contract_details.lookup req_id).isSome then
            eraseKey s3.contract_details req_id
          else s3.contract_details }
      (ReqResult.ok details, s4)
    else
      let s4 := { s3 with
        request_events := eraseKey s3.request_events req_id
        contract_details :=
          if (s3.contract_details.lookup req_id).isSome then
            eraseKey s3.contract_details req_id
          else s3.contract_details }
      (ReqResult.timeout req_id, s4)

/-- `IBClient.req_historical_data`: identical correlation scheme, with
`historical_data` as the result buffer. -/
def req_historical_data (s : ClientState) (evs : List InEvent) :
    ReqResult (List Bar) × ClientState :=
  if !s.ready then (ReqResult.notReady, s)
  else
    let alloc := get_next_req_id s
    let req_id := alloc.1
    let s1 := alloc.2
    let s2 := { s1 with request_events := upsert s1.request_events req_id false }
    let s3 := deliverAll s2 evs
    if (s3.request_events.lookup req_id).getD false then
      let data := (s3.historical_data.lookup req_id).getD []
      let s4 := { s3 with
        request_events := eraseKey s3.request_events req_id
        historical_data :=
          if (s3.historical_data.lookup req_id).isSome then
            eraseKey s3.historical_data req_id
          else s3.historical_data }
      (ReqResult.ok data, s4)
    else
      let s4 := { s3 with
        request_events := eraseKey s3.request_events req_id
        historical_data :=
          if (s3.historical_data.lookup req_id).isSome then
            eraseKey s3.historical_data req_id
          else s3.historical_data }
      (ReqResult.timeout req_id, s4)

/-! ## useRTH defaults of the two client variants (claim C8) -/

/-- `ib_client.py` `req_historical_data` signature: `use_rth: int = 0`. -/
def raw_client_use_rth_default : Nat := 0

/-- `ib_client_insync.py` `req_historical_data` signature:
`use_rth: bool = False`. -/
def insync_client_use_rth_default : Bool := false

/-- Python truthiness of the raw client's integer `use_rth` argument, as
the ibapi wire layer interprets it. -/
def useRthAsBool (useRth : Nat) : Bool := useRth ≠ 0

/-! ## ib_server.py — GET /ib/market-data/{code}

The handler talks to the Client Portal Gateway over HTTP; the two
gateway responses (contract search and history) are the environment of
the pure model.  `body = none` models a response whose body fails to
parse as JSON; `conid` is `str(contract.get("conid", ""))`, so a missing
key is the empty string.  The mapped `period`/`bar` strings and the
search parameters only shape the outbound gateway requests, which the
environment already answers, so they are not recomputed here. -/

/-- One record of the gateway's `secdef/search` JSON array.  Optional
fields model `contract.get(key, default)`. -/
structure SearchContract where
  conid : String
  symbol : Option String
  description : Option String
  exchange : Option String
  currency : Option String
deriving Repr, DecidableEq

/-- One record of the history response's `data` array (`t/o/h/l/c/v`).
Floats are modelled as integers; they are copied, never branched on. -/
structure RawBar where
  t : String
  o : Int
  h : Int
  l : Int
  c : Int
  v : Int
deriving Repr, DecidableEq

/-- An HTTP response from the gateway: status code plus parsed JSON body
(`none` when the body does not parse). -/
structure HttpResp (α : Type) where
  status : Nat
  body : Option α
deriving Repr, DecidableEq

/-- The environment of one `get_market_data` call: the path code, the
query parameters (with their `request.args.get` defaults), the two
gateway responses, and the wall-clock values read during the call. -/
structure MarketDataEnv where
  code : String
  duration : String := "10M"
  barSize : String := "1d"
  whatToShow : String := "TRADES"
  searchResp : HttpResp (List SearchContract)
  historyResp : HttpResp (List RawBar)
  requestTime : String
  responseTime : String
  durationMs : Nat
deriving Repr, DecidableEq

/-- The `contract` object of a successful market-data response body. -/
structure ContractJson where
  localSymbol : String
  conId : String
  symbol : String
  exchange : String
  currency : String
deriving Repr, DecidableEq

/-- The body of a successful market-data response. -/
structure MarketDataBody where
  symbol : String
  contract : ContractJson
  duration : String
  barSize : String
  whatToShow : String
  data : List Bar
  count : Nat
  requestTime : String
  responseTime : String
  durationMs : Nat
deriving Repr, DecidableEq

/-- A Flask response of the handler: HTTP status plus either the success
body or an error body (error message and echoed symbol). -/
inductive MarketDataResponse where
  | ok (status : Nat) (body : MarketDataBody)
  | err (status : Nat) (message : String) (symbol : String)
deriving Repr, DecidableEq

/-- The HTTP status of a handler response. -/
def MarketDataResponse.statusOf : MarketDataResponse → Nat
  | MarketDataResponse.ok st _ => st
  | MarketDataResponse.err st _ _ => st

/-- `ib_server.py` `historicalData` bar formatting: Web API bars carry no
trade count or weighted-average price, so those are zero. -/
def webBar (b : RawBar) : Bar :=
  { time := b.t
    open_ := b.o
    high := b.h
    low := b.l
    close := b.c
    volume := b.v
    count := 0
    wap := 0 }

/-- `ib_server.py` `get_market_data`: resolve the code via the product
table, search for a contract (404 on non-200 search, 500 on unparseable
search body, 404 on empty results or missing conid), fetch history (500
on non-200 or unparseable body), then return 200 with the formatted bar
list — which may be empty. -/
def get_market_data (env : MarketDataEnv) : MarketDataResponse :=
  let upper := env.code.toUpper
  let parsed := parse_product_from_code upper
  let product := PRODUCT_MAP.lookup parsed.1
  let symbol_to_use := match product with
    | some p => p.symbol
    | none => upper
  if env.searchResp.status ≠ 200 then
    MarketDataResponse.err 404
      ("Symbol search failed: " ++ toString env.searchResp.status) env.code
  else
    match env.searchResp.body with
    | none =>
        MarketDataResponse.err 500 "Failed to parse search response" env.code
    | some search_data =>
        match search_data with
        | [] =>
            MarketDataResponse.err 404
              ("No contract found for " ++ env.code) env.code
        | contract :: _ =>
            let conid := contract.conid
            if conid = "" then
              MarketDataResponse.err 404
                ("No contract ID found for " ++ env.code) env.code
            else if env.historyResp.status ≠ 200 then
              MarketDataResponse.err 500
                ("Historical data request failed: " ++
                  toString env.historyResp.status) env.code
            else
              match env.historyResp.body with
              | none =>
                  MarketDataResponse.err 500
                    "Failed to parse history response" env.code
              | some raw_bars =>
                  let data :=
                    if raw_bars.isEmpty then [] else raw_bars.map webBar
                  MarketDataResponse.ok 200
                    { symbol := env.code
                      contract :=
                        { localSymbol := contract.description.getD ""
                          conId := conid
                          symbol := contract.symbol.getD symbol_to_use
                          exchange := contract.exchange.getD ""
                          currency := contract.currency.getD "" }
                      duration := env.duration
                      barSize := env.barSize
                      whatToShow := env.whatToShow
                      data := data
                      count := data.length
                      requestTime := env.requestTime
                      responseTime := env.responseTime
                      durationMs := env.durationMs }

/-! ## Association-list lemmas -/

theorem lookup_cons_self {α : Type} (k : Nat) (v : α) (rest : List (Nat × α)) :
    List.lookup k ((k, v) :: rest) = some v := by
  simp [List.lookup]

theorem lookup_cons_of_ne {α : Type} (k k' : Nat) (v : α)
    (rest : List (Nat × α)) (h : k' ≠ k) :
    List.lookup k ((k', v) :: rest) = List.lookup k rest := by
  have hb : (k == k') = false := by simpa using Ne.symm h
  simp [List.lookup, hb]

theorem lookup_eraseKey_self {α : Type} (m : List (Nat × α)) (k : Nat) :
    (eraseKey m k).lookup k = none := by
  induction m with
  | nil => rfl
  | cons p rest ih =>
      by_cases h : p.1 = k
      · simpa [eraseKey, h] using ih
      · simpa [eraseKey, h, lookup_cons_of_ne k p.1 p.2 _ h] using ih

theorem lookup_upsert_self {α : Type} (m : List (Nat × α)) (k : Nat) (v : α) :
    (upsert m k v).lookup k = some v := by
  induction m with
  | nil => simp [upsert, lookup_cons_self]
  | cons p rest ih =>
      by_cases h : p.1 = k
      · simp [upsert, h, lookup_cons_self]
      · simpa [upsert, h, lookup_cons_of_ne k p.1 p.2 _ h] using ih

theorem lookup_setEvent_self (m : List (Nat × Bool)) (k : Nat) :
    (setEvent m k).lookup k = (m.lookup k).map (fun _ => true) := by
  induction m with
  | nil => rfl
  | cons p rest ih =>
      by_cases h : p.1 = k
      · subst h
        have hl : List.lookup p.1 (p :: rest) = some p.2 :=
          lookup_cons_self p.1 p.2 rest
        simp [setEvent, lookup_cons_self, hl]
      · have hp : (if p.1 = k then (p.1, true) else p) = p := if_neg h
        simp only [setEvent, List.map_cons, hp]
        rw [show p = (p.1, p.2) from rfl, lookup_cons_of_ne k p.1 p.2 _ h,
          lookup_cons_of_ne k p.1 p.2 _ h]
        simpa [setEvent] using ih

theorem mem_keys_upsert {α : Type} (m : List (Nat × α)) (k : Nat) (v : α)
    (a : Nat) : a ∈ keys (upsert m k v) ↔ a ∈ keys m ∨ a = k := by
  induction m with
  | nil => simp [upsert, keys]
  | cons p rest ih =>
      by_cases h : p.1 = k
      · subst h
        have hu : upsert (p :: rest) p.1 v = (p.1, v) :: rest := by
          rw [show p = (p.1, p.2) from rfl]
          simp [upsert]
        rw [hu]
        simp only [keys, List.map_cons, List.mem_cons]
        tauto
      · simp only [upsert, if_neg h, keys, List.map_cons, List.mem_cons] at *
        rw [ih]
        tauto

theorem nodup_keys_upsert {α : Type} (m : List (Nat × α)) (k : Nat) (v : α)
    (h : (keys m).Nodup) : (keys (upsert m k v)).Nodup := by
  induction m with
  | nil => simp [upsert, keys]
  | cons p rest ih =>
      simp only [keys, List.map_cons, List.nodup_cons] at h
      by_cases hk : p.1 = k
      · subst hk
        have hu : upsert (p :: rest) p.1 v = (p.1, v) :: rest := by
          rw [show p = (p.1, p.2) from rfl]
          simp [upsert]
        rw [hu]
        simp only [keys, List.map_cons, List.nodup_cons]
        exact ⟨h.1, h.2⟩
      · simp only [upsert, if_neg hk, keys, List.map_cons, List.nodup_cons]
        refine ⟨fun hmem => ?_, ih h.2⟩
        rcases (mem_keys_upsert rest k v p.1).mp hmem with h1 | h2
        · exact h.1 h1
        · exact hk h2

theorem nodup_keys_eraseKey {α : Type} (m : List (Nat × α)) (k : Nat)
    (h : (keys m).Nodup) : (keys (eraseKey m k)).Nodup := by
  have hsub : List.Sublist (keys (eraseKey m k)) (keys m) :=
    List.Sublist.map Prod.fst (List.filter_sublist m)
  exact h.sublist hsub

theorem keys_setEvent (m : List (Nat × Bool)) (k : Nat) :
    keys (setEvent m k) = keys m := by
  simp only [keys, setEvent, List.map_map]
  apply List.map_congr_left
  intro p _
  by_cases h : p.1 = k <;> simp [h]

theorem lookup_cleanup {α : Type} (m : List (Nat × α)) (k : Nat) :
    (if (m.lookup k).isSome then eraseKey m k else m).lookup k = none := by
  rcases hvk : m.lookup k with _ | v
  · simp [hvk]
  · simp [hvk, lookup_eraseKey_self]

theorem keys_request_events_deliver (s : ClientState) (e : InEvent) :
    keys (deliver s e).request_events = keys s.request_events := by
  cases e with
  | contractDetailsEv reqId cd => rfl
  | historicalDataEv reqId bar => rfl
  | contractDetailsEndEv reqId =>
      by_cases h : (s.request_events.lookup reqId).isSome = true
      · simp [deliver, contractDetailsEndCb, h, keys_setEvent]
      · simp [deliver, contractDetailsEndCb, h]
  | historicalDataEndEv reqId =>
      by_cases h : (s.request_events.lookup reqId).isSome = true
      · simp [deliver, historicalDataEndCb, h, keys_setEvent]
      · simp [deliver, historicalDataEndCb, h]
  | errorEv reqId c m =>
      by_cases h : (s.request_events.lookup reqId).isSome = true
      · simp [deliver, errorCb, h, keys_setEvent]
      · simp [deliver, errorCb, h]

theorem keys_request_events_deliverAll (evs : List InEvent) :
    ∀ s : ClientState,
      keys (deliverAll s evs).request_events = keys s.request_events := by
  induction evs with
  | nil => intro s; rfl
  | cons e rest ih =>
      intro s
      have h1 : deliverAll s (e :: rest) = deliverAll (deliver s e) rest := rfl
      rw [h1, ih, keys_request_events_deliver]

theorem run_next_ids_fst (n : Nat) : ∀ s : ClientState,
    (run_next_ids s n).1 = (List.range n).map (fun i => s.req_id + i) := by
  induction n with
  | zero => intro s; rfl
  | succ n ih =>
      intro s
      have h1 : (run_next_ids s (n + 1)).1
          = s.req_id :: (run_next_ids { s with req_id := s.req_id + 1 } n).1 := rfl
      rw [h1, ih, List.range_succ_eq_map, List.map_cons, List.map_map]
      congr 1
      apply List.map_congr_left
      intro i _
      simp [Function.comp]
      omega

/-- A Ready session with a fresh request counter and empty request
dictionaries, as reached right after a successful `connect_to_ib` on a
fresh client. -/
def sessionReady : ClientState :=
  { connected := true
    ready := true
    client_id := 1
    next_order_id := some 1
    req_id := 1
    contract_details := []
    historical_data := []
    request_events := [] }

/-- On a Ready session, a lone `contractDetailsEnd` for the allocated id
(the broker reporting zero matches) completes the wait with the empty
accumulated list. -/
theorem rcd_end_gives_empty (s : ClientState) (hready : s.ready = true)
    (hbuf : s.contract_details.lookup s.req_id = none) :
    (req_contract_details s [InEvent.contractDetailsEndEv s.req_id]).1
      = ReqResult.ok [] := by
  simp [req_contract_details, hready, get_next_req_id, deliverAll, deliver,
    contractDetailsEndCb, lookup_upsert_self, lookup_setEvent_self, hbuf]

/-- On a Ready session, a lone broker `error` event for the allocated id
also completes the wait, and the result is the (empty) accumulated
list — the same value as a zero-match completion. -/
theorem rcd_error_gives_empty (s : ClientState) (c : Nat) (m : String)
    (hready : s.ready = true)
    (hbuf : s.contract_details.lookup s.req_id = none) :
    (req_contract_details s [InEvent.errorEv s.req_id c m]).1
      = ReqResult.ok [] := by
  simp [req_contract_details, hready, get_next_req_id, deliverAll, deliver,
    errorCb, lookup_upsert_self, lookup_setEvent_self, hbuf]

/-- On a Ready session with no inbound message before the bound, the
wait times out and the timeout exception names the allocated id. -/
theorem rcd_silence_gives_timeout (s : ClientState) (hready : s.ready = true) :
    (req_contract_details s []).1 = ReqResult.timeout s.req_id := by
  simp [req_contract_details, hready, get_next_req_id, deliverAll,
    lookup_upsert_self]

/-! ## Claims -/

/-- C1: on a Ready session, after the blocking operations
`req_contract_details` and `req_historical_data` return by any path
(completion signal set, or timeout raising the exception), the
allocated request identifier (`s.req_id`) is absent from
`request_events` and from the corresponding result buffer
(`contract_details` / `historical_data`): no per-request state outlives
the caller. -/
theorem claim_C1 (s : ClientState) (evs : List InEvent)
    (hready : s.ready = true) :
    ((req_contract_details s evs).2.request_events.lookup s.req_id = none ∧
     (req_contract_details s evs).2.contract_details.lookup s.req_id = none) ∧
    ((req_historical_data s evs).2.request_events.lookup s.req_id = none ∧
     (req_historical_data s evs).2.historical_data.lookup s.req_id = none) := by
  constructor
  · simp only [req_contract_details, hready, Bool.not_true, Bool.false_eq_true,
      if_false, get_next_req_id]
    split
    · exact ⟨lookup_eraseKey_self _ _, lookup_cleanup _ _⟩
    · exact ⟨lookup_eraseKey_self _ _, lookup_cleanup _ _⟩
  · simp only [req_historical_data, hready, Bool.not_true, Bool.false_eq_true,
      if_false, get_next_req_id]
    split
    · exact ⟨lookup_eraseKey_self _ _, lookup_cleanup _ _⟩
    · exact ⟨lookup_eraseKey_self _ _, lookup_cleanup _ _⟩

/-- Witness for C1 at a concrete Ready session and a concrete event
sequence (one detail record, then the end marker). -/
theorem claim_C1_witness :
    sessionReady.ready = true ∧
    ((req_contract_details sessionReady
        [InEvent.contractDetailsEv 1 ⟨495512572, "Euro Bund"⟩,
         InEvent.contractDetailsEndEv 1]).2.request_events.lookup 1 = none ∧
     (req_contract_details sessionReady
        [InEvent.contractDetailsEv 1 ⟨495512572, "Euro Bund"⟩,
         InEvent.contractDetailsEndEv 1]).2.contract_details.lookup 1 = none) ∧
    ((req_historical_data sessionReady
        [InEvent.contractDetailsEv 1 ⟨495512572, "Euro Bund"⟩,
         InEvent.contractDetailsEndEv 1]).2.request_events.lookup 1 = none ∧
     (req_historical_data sessionReady
        [InEvent.contractDetailsEv 1 ⟨495512572, "Euro Bund"⟩,
         InEvent.contractDetailsEndEv 1]).2.historical_data.lookup 1 = none) :=
  ⟨rfl,
   (claim_C1 sessionReady
      [InEvent.contractDetailsEv 1 ⟨495512572, "Euro Bund"⟩,
       InEvent.contractDetailsEndEv 1] rfl).1,
   (claim_C1 sessionReady
      [InEvent.contractDetailsEv 1 ⟨495512572, "Euro Bund"⟩,
       InEvent.contractDetailsEndEv 1] rfl).2⟩

/-- C2: request identifiers are allocated by a strictly increasing
counter — over any run of `get_next_req_id` calls the returned ids are
strictly increasing, hence pairwise distinct (never reused) — and the
blocking request operations keep the `request_events` dictionary's keys
free of duplicates, so at most one pending-request entry exists per
identifier. -/
theorem claim_C2 (s : ClientState) (n : Nat) (evs : List InEvent)
    (hkeys : (keys s.request_events).Nodup) :
    ((run_next_ids s n).1).Pairwise (· < ·) ∧
    ((run_next_ids s n).1).Nodup ∧
    (keys (req_contract_details s evs).2.request_events).Nodup ∧
    (keys (req_historical_data s evs).2.request_events).Nodup := by
  have hpair : ((run_next_ids s n).1).Pairwise (· < ·) := by
    rw [run_next_ids_fst]
    rw [List.pairwise_map]
    exact (List.pairwise_lt_range n).imp fun h => by omega
  refine ⟨hpair, hpair.imp fun h => Nat.ne_of_lt h, ?_, ?_⟩
  · by_cases hready : s.ready = true
    · simp only [req_contract_details, hready, Bool.not_true,
        Bool.false_eq_true, if_false, get_next_req_id]
      split
      all_goals
        apply nodup_keys_eraseKey
        rw [keys_request_events_deliverAll]
        exact nodup_keys_upsert _ _ _ hkeys
    · have h' : s.ready = false := by
        cases h : s.ready
        · rfl
        · exact absurd h hready
      simp only [req_contract_details, h', Bool.not_false, if_true]
      exact hkeys
  · by_cases hready : s.ready = true
    · simp only [req_historical_data, hready, Bool.not_true,
        Bool.false_eq_true, if_false, get_next_req_id]
      split
      all_goals
        apply nodup_keys_eraseKey
        rw [keys_request_events_deliverAll]
        exact nodup_keys_upsert _ _ _ hkeys
    · have h' : s.ready = false := by
        cases h : s.ready
        · rfl
        · exact absurd h hready
      simp only [req_historical_data, h', Bool.not_false, if_true]
      exact hkeys

/-- Witness for C2: three allocations on a fresh Ready session, and one
request with a lone end event. -/
theorem claim_C2_witness :
    (keys sessionReady.request_events).Nodup ∧
    ((run_next_ids sessionReady 3).1).Pairwise (· < ·) ∧
    ((run_next_ids sessionReady 3).1).Nodup ∧
    (keys (req_contract_details sessionReady
      [InEvent.contractDetailsEndEv 1]).2.request_events).Nodup :=
  ⟨List.nodup_nil,
   (claim_C2 sessionReady 3 [InEvent.contractDetailsEndEv 1]
      List.nodup_nil).1,
   (claim_C2 sessionReady 3 [InEvent.contractDetailsEndEv 1]
      List.nodup_nil).2.1,
   (claim_C2 sessionReady 3 [InEvent.contractDetailsEndEv 1]
      List.nodup_nil).2.2.1⟩

/-- C9: `parse_product_from_code "EURBBLM25" = ("EURBBL", "M25")`; the
product table resolves `EURBBL` to symbol FGBL on EUREX in EUR; a code
whose prefix is not in the table falls back to `(full_code, None)`
without raising; and when the broker resolves the month to no real
contract (zero matches, just an end marker) the outcome is the empty
list — `NoMatch` — not a crash. -/
theorem claim_C9 (c : String)
    (hmiss : PRODUCT_MAP.lookup (c.take (c.length - 3)) = none)
    (s : ClientState) (hready : s.ready = true)
    (hbuf : s.contract_details.lookup s.req_id = none) :
    parse_product_from_code "EURBBLM25" = ("EURBBL", some "M25") ∧
    PRODUCT_MAP.lookup "EURBBL" = some ⟨"FGBL", "CONTFUT", "EUREX", "EUR"⟩ ∧
    parse_product_from_code c = (c, none) ∧
    (req_contract_details s [InEvent.contractDetailsEndEv s.req_id]).1
      = ReqResult.ok [] := by
  refine ⟨?_, rfl, ?_, rcd_end_gives_empty s hready hbuf⟩
  · rfl
  · unfold parse_product_from_code
    by_cases hlen : c.length ≤ 3
    · simp [hlen]
    · simp [hlen, hmiss]

/-- Witness for C9: the unknown-prefix code `XXXXXX` and a Ready session
receiving only the end marker. -/
theorem claim_C9_witness :
    PRODUCT_MAP.lookup ("XXXXXX".take ("XXXXXX".length - 3)) = none ∧
    sessionReady.ready = true ∧
    sessionReady.contract_details.lookup sessionReady.req_id = none ∧
    parse_product_from_code "EURBBLM25" = ("EURBBL", some "M25") ∧
    parse_product_from_code "XXXXXX" = ("XXXXXX", none) ∧
    (req_contract_details sessionReady
        [InEvent.contractDetailsEndEv sessionReady.req_id]).1
      = ReqResult.ok [] :=
  ⟨rfl, rfl, rfl,
   (claim_C9 "XXXXXX" rfl sessionReady rfl rfl).1,
   (claim_C9 "XXXXXX" rfl sessionReady rfl rfl).2.2.1,
   (claim_C9 "XXXXXX" rfl sessionReady rfl rfl).2.2.2⟩

/-- C10: for every product code in the table and every contract-month
argument, `create_contract_from_product` returns a contract whose
identifying fields equal the table entry and whose contract-month field
is never set; the month argument has no effect on the result; unknown
product codes raise `ValueError`. -/
theorem claim_C10 (code : String) (month : Option String) (p : ProductInfo) :
    (PRODUCT_MAP.lookup code = some p →
      create_contract_from_product code month
        = Except.ok ⟨p.symbol, p.secType, p.exchange, p.currency, ""⟩) ∧
    (PRODUCT_MAP.lookup code = none →
      create_contract_from_product code month
        = Except.error ("Unknown product code: " ++ code)) ∧
    (∀ month2, create_contract_from_product code month
        = create_contract_from_product code month2) := by
  refine ⟨fun h => ?_, fun h => ?_, fun month2 => rfl⟩
  · simp [create_contract_from_product, h]
  · simp [create_contract_from_product, h]

/-- Witness for C10 at `EURBBL` with month `M25`, and at the unknown
code `ZZZ` with no month. -/
theorem claim_C10_witness :
    PRODUCT_MAP.lookup "EURBBL" = some ⟨"FGBL", "CONTFUT", "EUREX", "EUR"⟩ ∧
    create_contract_from_product "EURBBL" (some "M25")
      = Except.ok ⟨"FGBL", "CONTFUT", "EUREX", "EUR", ""⟩ ∧
    PRODUCT_MAP.lookup "ZZZ" = none ∧
    create_contract_from_product "ZZZ" none
      = Except.error ("Unknown product code: " ++ "ZZZ") :=
  ⟨rfl,
   (claim_C10 "EURBBL" (some "M25") ⟨"FGBL", "CONTFUT", "EUREX", "EUR"⟩).1 rfl,
   rfl,
   (claim_C10 "ZZZ" none ⟨"", "", "", ""⟩).2.1 rfl⟩

/-- C3 counterexample: a `contractDetails` (and `historicalData`) event
whose request identifier has no registered pending request is not
dropped: it creates a fresh buffer entry for that identifier, mutating
per-request state. -/
theorem claim_C3_cex :
    (initClient 1).request_events.lookup 5 = none ∧
    (initClient 1).contract_details = [] ∧
    (deliver (initClient 1)
        (InEvent.contractDetailsEv 5 ⟨495512572, "Euro Bund"⟩)).contract_details
      = [(5, [⟨495512572, "Euro Bund"⟩])] ∧
    (initClient 1).historical_data = [] ∧
    (deliver (initClient 1)
        (InEvent.historicalDataEv 5
          ⟨"20250101 00:00:00", 130, 131, 129, 130, 1000, 10, 130⟩)).historical_data
      = [(5, [⟨"20250101 00:00:00", 130, 131, 129, 130, 1000, 10, 130⟩])] :=
  ⟨rfl, rfl, rfl, rfl, rfl⟩

/-- C3 amended: the terminal callbacks (`contractDetailsEnd`,
`historicalDataEnd`, `error`) drop events whose identifier has no
registered pending request, leaving the whole state unchanged; the data
callbacks (`contractDetails`, `historicalData`) never consult
`request_events` and unconditionally create or extend the buffer entry
for the identifier. -/
theorem claim_C3_amended (s : ClientState) (reqId c : Nat) (m : String)
    (cd : ContractDetails) (bar : BarData)
    (h : s.request_events.lookup reqId = none) :
    deliver s (InEvent.contractDetailsEndEv reqId) = s ∧
    deliver s (InEvent.historicalDataEndEv reqId) = s ∧
    deliver s (InEvent.errorEv reqId c m) = s ∧
    (deliver s (InEvent.contractDetailsEv reqId cd)).contract_details.lookup reqId
      = some ((s.contract_details.lookup reqId).getD [] ++ [cd]) ∧
    (deliver s (InEvent.historicalDataEv reqId bar)).historical_data.lookup reqId
      = some ((s.historical_data.lookup reqId).getD [] ++
          [⟨bar.date, bar.open_, bar.high, bar.low, bar.close, bar.volume,
            bar.barCount, bar.wap⟩]) := by
  refine ⟨?_, ?_, ?_, ?_, ?_⟩
  · simp [deliver, contractDetailsEndCb, h]
  · simp [deliver, historicalDataEndCb, h]
  · simp [deliver, errorCb, h]
  · simp [deliver, contractDetailsCb, lookup_upsert_self]
  · simp [deliver, historicalDataCb, lookup_upsert_self]

/-- Witness for C3 amended, at a fresh client and identifier 5. -/
theorem claim_C3_amended_witness :
    (initClient 1).request_events.lookup 5 = none ∧
    deliver (initClient 1) (InEvent.contractDetailsEndEv 5) = initClient 1 ∧
    deliver (initClient 1) (InEvent.errorEv 5 200 "not found") = initClient 1 ∧
    (deliver (initClient 1)
        (InEvent.contractDetailsEv 5 ⟨495512572, "Euro Bund"⟩)).contract_details.lookup 5
      = some (((initClient 1).contract_details.lookup 5).getD []
          ++ [⟨495512572, "Euro Bund"⟩]) :=
  ⟨rfl,
   (claim_C3_amended (initClient 1) 5 200 "not found" ⟨495512572, "Euro Bund"⟩
      ⟨"", 0, 0, 0, 0, 0, 0, 0⟩ rfl).1,
   (claim_C3_amended (initClient 1) 5 200 "not found" ⟨495512572, "Euro Bund"⟩
      ⟨"", 0, 0, 0, 0, 0, 0, 0⟩ rfl).2.2.1,
   (claim_C3_amended (initClient 1) 5 200 "not found" ⟨495512572, "Euro Bund"⟩
      ⟨"", 0, 0, 0, 0, 0, 0, 0⟩ rfl).2.2.2.1⟩

/-- C4 counterexample: on a Ready session, a broker error event for the
pending request makes `req_contract_details` return the empty list —
exactly the same value as the zero-match (`NoMatch`) completion, so the
caller cannot distinguish a protocol error from no match. -/
theorem claim_C4_cex :
    (req_contract_details sessionReady
        [InEvent.errorEv 1 200 "No security definition has been found"]).1
      = ReqResult.ok [] ∧
    (req_contract_details sessionReady [InEvent.contractDetailsEndEv 1]).1
      = ReqResult.ok [] :=
  ⟨rcd_error_gives_empty sessionReady 200
      "No security definition has been found" rfl rfl,
   rcd_end_gives_empty sessionReady rfl rfl⟩

/-- C4 amended: a broker error event for the pending request only sets
the completion signal, so `req_contract_details` returns the
accumulated buffer — the empty list when no details arrived —
indistinguishable from the zero-match result; only the timeout outcome
is reported distinctly (as a raised exception). -/
theorem claim_C4_amended (s : ClientState) (c : Nat) (m : String)
    (hready : s.ready = true)
    (hbuf : s.contract_details.lookup s.req_id = none) :
    (req_contract_details s [InEvent.errorEv s.req_id c m]).1
      = ReqResult.ok [] ∧
    (req_contract_details s [InEvent.contractDetailsEndEv s.req_id]).1
      = ReqResult.ok [] ∧
    (req_contract_details s []).1 = ReqResult.timeout s.req_id :=
  ⟨rcd_error_gives_empty s c m hready hbuf,
   rcd_end_gives_empty s hready hbuf,
   rcd_silence_gives_timeout s hready⟩

/-- Witness for C4 amended at the concrete Ready session. -/
theorem claim_C4_amended_witness :
    sessionReady.ready = true ∧
    sessionReady.contract_details.lookup sessionReady.req_id = none ∧
    (req_contract_details sessionReady
        [InEvent.errorEv sessionReady.req_id 354 "not subscribed"]).1
      = ReqResult.ok [] ∧
    (req_contract_details sessionReady []).1
      = ReqResult.timeout sessionReady.req_id :=
  ⟨rfl, rfl,
   (claim_C4_amended sessionReady 354 "not subscribed" rfl rfl).1,
   (claim_C4_amended sessionReady 354 "not subscribed" rfl rfl).2.2⟩

/-- C5 counterexample: when the probe receives only `connectAck` (socket
accepted, readiness never signalled), `test_connection` reports failure
and returns with the probe client still connected — no disconnect on
the failure path. -/
theorem claim_C5_cex :
    (test_connection 12345 [ConnEvent.connectAckEv]).1
      = ⟨false, some "Connection timeout"⟩ ∧
    (test_connection 12345 [ConnEvent.connectAckEv]).2.connected = true :=
  ⟨rfl, rfl⟩

/-- C5 amended: `test_connection` disconnects the probe only on the
successful-probe path (where both probe flags end false and the result
is `connected: true`); on a failed connect the probe client is
abandoned exactly as the delivered events left it, with no disconnect,
and the result is `connected: false` with the error message. -/
theorem claim_C5_amended (probe_id : Nat) (evs : List ConnEvent) :
    ((test_connection probe_id evs).1.connected = true →
      (test_connection probe_id evs).2.connected = false ∧
      (test_connection probe_id evs).2.ready = false ∧
      (test_connection probe_id evs).1.errMsg = none) ∧
    ((test_connection probe_id evs).1.connected = false →
      (test_connection probe_id evs).1.errMsg = some "Connection timeout" ∧
      (test_connection probe_id evs).2 = connRun (initClient probe_id) evs) := by
  by_cases h : (connRun (initClient probe_id) evs).ready = true
  · simp [test_connection, connect_to_ib, h, disconnect_from_ib]
  · have h' : (connRun (initClient probe_id) evs).ready = false := by
      cases hx : (connRun (initClient probe_id) evs).ready
      · rfl
      · exact absurd hx h
    simp [test_connection, connect_to_ib, h']

/-- Witness for C5 amended: a successful probe (ack then valid id) ends
disconnected; a failed probe (ack only) keeps the events' state. -/
theorem claim_C5_amended_witness :
    ((test_connection 77 [ConnEvent.connectAckEv, ConnEvent.nextValidIdEv 9]).1.connected
        = true ∧
      (test_connection 77 [ConnEvent.connectAckEv, ConnEvent.nextValidIdEv 9]).2.connected
        = false ∧
      (test_connection 77 [ConnEvent.connectAckEv, ConnEvent.nextValidIdEv 9]).2.ready
        = false) ∧
    ((test_connection 78 [ConnEvent.connectAckEv]).1.connected = false ∧
      (test_connection 78 [ConnEvent.connectAckEv]).2
        = connRun (initClient 78) [ConnEvent.connectAckEv]) :=
  ⟨⟨rfl,
    ((claim_C5_amended 77 [ConnEvent.connectAckEv, ConnEvent.nextValidIdEv 9]).1
      rfl).1,
    ((claim_C5_amended 77 [ConnEvent.connectAckEv, ConnEvent.nextValidIdEv 9]).1
      rfl).2.1⟩,
   ⟨rfl,
    ((claim_C5_amended 78 [ConnEvent.connectAckEv]).2 rfl).2⟩⟩

/-- C6 counterexample: when only `connectAck` arrives within the bound,
`connect_to_ib` fails (returns false) but the session is not left
Disconnected: the `connected` flag is still true. -/
theorem claim_C6_cex :
    (connect_to_ib (initClient 7) [ConnEvent.connectAckEv]).1 = false ∧
    (connect_to_ib (initClient 7) [ConnEvent.connectAckEv]).2.connected = true ∧
    (connect_to_ib (initClient 7) [ConnEvent.connectAckEv]).2.ready = false :=
  ⟨rfl, rfl, rfl⟩

/-- C6 amended: if readiness is not observed within the bound,
`connect_to_ib` returns failure (a false return, logged rather than a
raised `ConnectionTimeout`) and `ready` is false, but nothing is torn
down — the `connected` flag keeps whatever value the delivered events
gave it; if readiness is observed, the call returns success. -/
theorem claim_C6_amended (s : ClientState) (evs : List ConnEvent) :
    ((connRun s evs).ready = false →
      (connect_to_ib s evs).1 = false ∧
      (connect_to_ib s evs).2.ready = false ∧
      (connect_to_ib s evs).2.connected = (connRun s evs).connected) ∧
    ((connRun s evs).ready = true → (connect_to_ib s evs).1 = true) := by
  constructor
  · intro h
    simp [connect_to_ib, h]
  · intro h
    simp [connect_to_ib, h]

/-- Witness for C6 amended: ack-only fails with `connected` kept true;
ack plus valid id succeeds. -/
theorem claim_C6_amended_witness :
    ((connRun (initClient 7) [ConnEvent.connectAckEv]).ready = false ∧
      (connect_to_ib (initClient 7) [ConnEvent.connectAckEv]).1 = false ∧
      (connect_to_ib (initClient 7) [ConnEvent.connectAckEv]).2.connected
        = (connRun (initClient 7) [ConnEvent.connectAckEv]).connected) ∧
    ((connRun (initClient 7)
        [ConnEvent.connectAckEv, ConnEvent.nextValidIdEv 3]).ready = true ∧
      (connect_to_ib (initClient 7)
        [ConnEvent.connectAckEv, ConnEvent.nextValidIdEv 3]).1 = true) :=
  ⟨⟨rfl,
    ((claim_C6_amended (initClient 7) [ConnEvent.connectAckEv]).1 rfl).1,
    ((claim_C6_amended (initClient 7) [ConnEvent.connectAckEv]).1 rfl).2.2⟩,
   ⟨rfl,
    (claim_C6_amended (initClient 7)
      [ConnEvent.connectAckEv, ConnEvent.nextValidIdEv 3]).2 rfl⟩⟩

/-- A market-data environment whose contract search succeeds but whose
history response carries zero bars. -/
def mdEnvNoBars : MarketDataEnv :=
  { code := "EURBBLM25"
    searchResp :=
      ⟨200, some [⟨"495512572", some "FGBL", some "FGBL SEP 25",
        some "EUREX", some "EUR"⟩]⟩
    historyResp := ⟨200, some []⟩
    requestTime := "2025-01-01T00:00:00"
    responseTime := "2025-01-01T00:00:01"
    durationMs := 1000 }

/-- C7 counterexample: a request whose fetched historical data contains
no bars is answered with status 200 (and `count = 0`), not with the 404
the claim requires. -/
theorem claim_C7_cex :
    mdEnvNoBars.historyResp.body = some [] ∧
    (get_market_data mdEnvNoBars).statusOf = 200 :=
  ⟨rfl, rfl⟩

/-- C7 amended: `GET /ib/market-data/{code}` answers 404 when the
contract search fails, returns no contracts, or yields no contract id;
500 when a gateway body fails to parse or the history request fails;
and 200 otherwise — including when the history data has no bars, which
yields an empty `data` list with `count = 0`.  The success body carries
symbol, contract, data, count, requestTime, responseTime and
durationMs. -/
theorem claim_C7_amended (env : MarketDataEnv) :
    (env.searchResp.status ≠ 200 →
      (get_market_data env).statusOf = 404) ∧
    (env.searchResp.status = 200 → env.searchResp.body = none →
      (get_market_data env).statusOf = 500) ∧
    (env.searchResp.status = 200 → env.searchResp.body = some [] →
      (get_market_data env).statusOf = 404) ∧
    (∀ c rest, env.searchResp.status = 200 →
      env.searchResp.body = some (c :: rest) → c.conid = "" →
      (get_market_data env).statusOf = 404) ∧
    (∀ c rest, env.searchResp.status = 200 →
      env.searchResp.body = some (c :: rest) → c.conid ≠ "" →
      env.historyResp.status ≠ 200 →
      (get_market_data env).statusOf = 500) ∧
    (∀ c rest, env.searchResp.status = 200 →
      env.searchResp.body = some (c :: rest) → c.conid ≠ "" →
      env.historyResp.status = 200 → env.historyResp.body = none →
      (get_market_data env).statusOf = 500) ∧
    (∀ c rest bars, env.searchResp.status = 200 →
      env.searchResp.body = some (c :: rest) → c.conid ≠ "" →
      env.historyResp.status = 200 → env.historyResp.body = some bars →
      ∃ b, get_market_data env = MarketDataResponse.ok 200 b ∧
        b.symbol = env.code ∧ b.count = b.data.length ∧
        b.requestTime = env.requestTime ∧ b.responseTime = env.responseTime ∧
        b.durationMs = env.durationMs ∧
        (bars = [] → b.data = [])) := by
  refine ⟨fun h1 => ?_, fun h1 h2 => ?_, fun h1 h2 => ?_,
    fun c rest h1 h2 h3 => ?_, fun c rest h1 h2 h3 h4 => ?_,
    fun c rest h1 h2 h3 h4 h5 => ?_, fun c rest bars h1 h2 h3 h4 h5 => ?_⟩
  · simp [get_market_data, h1, MarketDataResponse.statusOf]
  · simp [get_market_data, h1, h2, MarketDataResponse.statusOf]
  · simp [get_market_data, h1, h2, MarketDataResponse.statusOf]
  · simp [get_market_data, h1, h2, h3, MarketDataResponse.statusOf]
  · simp [get_market_data, h1, h2, h3, h4, MarketDataResponse.statusOf]
  · simp [get_market_data, h1, h2, h3, h4, h5, MarketDataResponse.statusOf]
  · simp [get_market_data, h1, h2, h3, h4, h5]

/-- Witness for C7 amended: the zero-bar environment takes the success
path. -/
theorem claim_C7_amended_witness :
    mdEnvNoBars.searchResp.status = 200 ∧
    mdEnvNoBars.historyResp.status = 200 ∧
    ∃ b, get_market_data mdEnvNoBars = MarketDataResponse.ok 200 b ∧
      b.symbol = mdEnvNoBars.code ∧ b.count = b.data.length ∧
      b.requestTime = mdEnvNoBars.requestTime ∧
      b.responseTime = mdEnvNoBars.responseTime ∧
      b.durationMs = mdEnvNoBars.durationMs ∧
      (([] : List RawBar) = [] → b.data = []) :=
  ⟨rfl, rfl,
   (claim_C7_amended mdEnvNoBars).2.2.2.2.2.2
     ⟨"495512572", some "FGBL", some "FGBL SEP 25", some "EUREX", some "EUR"⟩
     [] [] rfl rfl (by decide) rfl rfl⟩

/-- C8 counterexample: the two variants' `useRTH` defaults agree — the
raw callback client defaults `use_rth` to the integer 0 (falsy) and the
insync wrapper to `False` — contradicting the claimed true-versus-false
divergence for calls that omit the argument. -/
theorem claim_C8_cex :
    useRthAsBool raw_client_use_rth_default = insync_client_use_rth_default := by
  decide

/-- C8 amended: both client implementations default `useRTH` to false
(`use_rth: int = 0` in the raw callback client, `use_rth: bool = False`
in the insync wrapper), so a `req_historical_data` call omitting
`use_rth` passes the same useRTH flag in both variants; the
implementations' semantic divergences lie elsewhere (contract
pre-resolution and market-data-type selection exist only in the insync
variant). -/
theorem claim_C8_amended :
    useRthAsBool raw_client_use_rth_default = false ∧
    insync_client_use_rth_default = false ∧
    raw_client_use_rth_default = 0 := by
  decide

end IBGateway
